import Mathlib

/-!
Verification of the ignition infrastructure-driver framework.

The repository ships `ignition/service/logging.py` (trace context, logstash
formatter, startup configuration) together with the unit tests of the
infrastructure request/lifecycle subsystem.  The logging module is embedded
directly from its source; the infrastructure service, task monitoring
service, messaging service and API facade are modelled from the
specification (their module is exercised by the tests but its source is not
in the tree).

Python dictionaries are embedded as association lists with last-write-wins
update semantics; Python `None`-able values as `Option`; raised exceptions
as `Except.error`.
-/

namespace Ignition

/-! ### Python dict primitives (association lists, insertion ordered) -/

/-- Python dict assignment `d[k] = v`: replace in place when the key exists,
append otherwise (equivalent to CPython insertion-order semantics on dicts,
whose keys are distinct). -/
def dictSet {α : Type} (d : List (String × α)) (k : String) (v : α) :
    List (String × α) :=
  match d with
  | [] => [(k, v)]
  | p :: rest => if p.1 == k then (k, v) :: rest else p :: dictSet rest k v

/-- Python dict lookup `d.get(k)`. -/
def dictGet {α : Type} (d : List (String × α)) (k : String) : Option α :=
  match d with
  | [] => none
  | p :: rest => if p.1 == k then some p.2 else dictGet rest k

/-- Python dict update `d.update(kvs)`: assign each pair in order. -/
def dictUpdate {α : Type} (d : List (String × α)) (kvs : List (String × α)) :
    List (String × α) :=
  kvs.foldl (fun acc kv => dictSet acc kv.1 kv.2) d

/-- Presence of a key, `k in d`. -/
def dictHas {α : Type} (d : List (String × α)) (k : String) : Bool :=
  d.any (fun p => p.1 == k)

theorem dictGet_dictSet_self {α : Type} (d : List (String × α)) (k : String) (v : α) :
    dictGet (dictSet d k v) k = some v := by
  induction d with
  | nil => simp [dictSet, dictGet]
  | cons p rest ih =>
    by_cases hp : p.1 == k
    · simp [dictSet, dictGet, hp]
    · simp only [dictSet, hp, Bool.false_eq_true, if_false, dictGet]
      exact ih

theorem dictGet_dictSet_ne {α : Type} (d : List (String × α)) (k k' : String) (v : α)
    (hne : k ≠ k') :
    dictGet (dictSet d k v) k' = dictGet d k' := by
  induction d with
  | nil =>
    simp only [dictSet, dictGet]
    rw [if_neg (by simpa using hne)]
  | cons p rest ih =>
    by_cases hp : p.1 == k
    · have hpk : p.1 = k := by simpa using hp
      simp only [dictSet, hp, if_true, dictGet]
      rw [if_neg (by simpa using hne), if_neg (by rw [hpk]; simpa using hne)]
    · simp only [dictSet, hp, Bool.false_eq_true, if_false, dictGet]
      by_cases hq : p.1 == k'
      · simp [hq]
      · rw [if_neg hq, if_neg hq]
        exact ih

theorem dictGet_dictUpdate_not_mem {α : Type} (kvs : List (String × α))
    (d : List (String × α)) (k : String)
    (h : ∀ kv ∈ kvs, kv.1 ≠ k) :
    dictGet (dictUpdate d kvs) k = dictGet d k := by
  induction kvs generalizing d with
  | nil => rfl
  | cons kv rest ih =>
    have hrest : ∀ p ∈ rest, p.1 ≠ k := fun p hp => h p (List.mem_cons_of_mem _ hp)
    calc dictGet (dictUpdate d (kv :: rest)) k
        = dictGet (dictUpdate (dictSet d kv.1 kv.2) rest) k := rfl
      _ = dictGet (dictSet d kv.1 kv.2) k := ih _ hrest
      _ = dictGet d k := dictGet_dictSet_ne _ _ _ _ (h kv (List.mem_cons_self _ _))

theorem dictGet_dictUpdate_mem {α : Type} (kvs : List (String × α))
    (d : List (String × α)) (k : String) (v : α)
    (hnodup : (kvs.map Prod.fst).Nodup)
    (hmem : (k, v) ∈ kvs) :
    dictGet (dictUpdate d kvs) k = some v := by
  induction kvs generalizing d with
  | nil => simp at hmem
  | cons kv rest ih =>
    rcases List.mem_cons.mp hmem with heq | hmemr
    · subst heq
      have hrest : ∀ p ∈ rest, p.1 ≠ k := by
        intro p hp
        have := (List.nodup_cons.mp hnodup).1
        intro hpk
        exact this (by simpa [hpk] using List.mem_map_of_mem Prod.fst hp)
      calc dictGet (dictUpdate d ((k, v) :: rest)) k
          = dictGet (dictUpdate (dictSet d k v) rest) k := rfl
        _ = dictGet (dictSet d k v) k := dictGet_dictUpdate_not_mem _ _ _ hrest
        _ = some v := dictGet_dictSet_self _ _ _
    · exact ih _ (List.nodup_cons.mp hnodup).2 hmemr

theorem dictGet_of_mem {α : Type} (l : List (String × α)) (k : String) (v : α)
    (hnodup : (l.map Prod.fst).Nodup) (hmem : (k, v) ∈ l) :
    dictGet l k = some v := by
  induction l with
  | nil => simp at hmem
  | cons p rest ih =>
    by_cases hp : p.1 == k
    · have hpk : p.1 = k := by simpa using hp
      rcases List.mem_cons.mp hmem with heq | hmemr
      · simp [dictGet, hp, ← heq]
      · exfalso
        exact (List.nodup_cons.mp hnodup).1
          (by simpa [hpk] using List.mem_map_of_mem Prod.fst hmemr)
    · have hne : k ≠ p.1 := fun h => hp (by simp [h])
      rcases List.mem_cons.mp hmem with heq | hmemr
      · exact absurd (congrArg Prod.fst heq) hne
      · simp only [dictGet, hp, Bool.false_eq_true, if_false]
        exact ih (List.nodup_cons.mp hnodup).2 hmemr

/-! ### `ignition/service/logging.py` -/

/-- A single-quote character, used to build Python error message literals. -/
def sq : String := String.singleton (Char.ofNat 39)

/-- Python `str.lower()` (ASCII range), over the character list. -/
def pyLower (s : String) : String := ⟨s.data.map Char.toLower⟩

/-- Python `str.startswith(pre)`, over the character lists. -/
def pyStartsWith (s pre : String) : Bool := pre.data.isPrefixOf s.data

/-- Python slicing `s[n:]`, over the character list. -/
def pyDrop (s : String) (n : Nat) : String := ⟨s.data.drop n⟩

/-- Source constant `LM_HTTP_HEADER_PREFIX = "X-Tracectx-"` (logging.py line 17). -/
def LM_HTTP_HEADER_PFX : String := "X-Tracectx-"

/-- Source constant `LOGGING_CONTEXT_KEY_PREFIX = "traceCtx."` (logging.py line 18). -/
def LOGGING_CONTEXT_KEY_PFX : String := "traceCtx."

/-- Thread-local `LoggingContext.data` dictionary (logging.py lines 22-25). -/
structure LoggingContext where
  data : List (String × String)
deriving DecidableEq

/-- The filter in `set_from_headers`: header name case-insensitively starts
with `X-Tracectx-` (logging.py line 30). -/
def isTraceHeader (name : String) : Bool :=
  pyStartsWith (pyLower name) (pyLower LM_HTTP_HEADER_PFX)

/-- The map in `set_from_headers`: the context key derived from a matching
header name, `"traceCtx." + name[len(prefix):].lower()` (logging.py line 29). -/
def traceKey (name : String) : String :=
  LOGGING_CONTEXT_KEY_PFX ++ pyLower (pyDrop name LM_HTTP_HEADER_PFX.length)

/-- The list comprehension of `set_from_headers`: filter the inbound headers
on the prefix, then rename each (logging.py lines 29-30). -/
def extractTraceHeaders (headers : List (String × String)) :
    List (String × String) :=
  (headers.filter (fun h => isTraceHeader h.1)).map (fun h => (traceKey h.1, h.2))

/-- Source method `LoggingContext.set_from_headers` (logging.py lines 27-30):
`self.data.update(...)` with the extracted header pairs. -/
def LoggingContext.set_from_headers (ctx : LoggingContext)
    (headers : List (String × String)) : LoggingContext :=
  ⟨dictUpdate ctx.data (extractTraceHeaders headers)⟩

/-- Source method `LoggingContext.set_from_dict` (logging.py lines 32-33). -/
def LoggingContext.set_from_dict (ctx : LoggingContext)
    (d : List (String × String)) : LoggingContext :=
  ⟨dictUpdate ctx.data d⟩

/-- Source method `LoggingContext.get` (logging.py lines 35-36). -/
def LoggingContext.get (ctx : LoggingContext) (name : String)
    (default : String := "") : String :=
  (dictGet ctx.data name).getD default

/-- Source method `LoggingContext.clear` (logging.py lines 42-43). -/
def LoggingContext.clear (_ : LoggingContext) : LoggingContext := ⟨[]⟩

/-- A `frozendict` value: an immutable mapping holding its own copy of the
entries it was constructed from. -/
structure Frozendict where
  entries : List (String × String)
deriving DecidableEq

/-- Modelled from the spec: the `frozendict` third-party class used by
`get_all` (logging.py line 40) copies the entries of the dictionary it is
given; it exposes lookup but no mutators, so item assignment and deletion
raise `TypeError`. -/
def frozendict (d : List (String × String)) : Frozendict := ⟨d⟩

/-- The operations a caller can attempt on a snapshot returned by
`get_all`: lookup, item assignment, item deletion. -/
inductive FrozendictOp where
  | getitem (k : String)
  | setitem (k : String) (v : String)
  | delitem (k : String)
deriving DecidableEq

/-- Whether the attempted operation would mutate the mapping. -/
def FrozendictOp.isMutation : FrozendictOp → Bool
  | .getitem _ => false
  | .setitem _ _ => true
  | .delitem _ => true

/-- Modelled from the spec: applying an operation to a `frozendict`.
Lookup reads the copied entries; mutation attempts raise `TypeError`
(`frozendict` defines no `__setitem__`/`__delitem__`), leaving the
mapping as it was. -/
def Frozendict.apply (fd : Frozendict) (op : FrozendictOp) :
    Frozendict × Except String (Option String) :=
  match op with
  | .getitem k => (fd, Except.ok (dictGet fd.entries k))
  | .setitem _ _ =>
      (fd, Except.error "TypeError: frozendict object does not support item assignment")
  | .delitem _ =>
      (fd, Except.error "TypeError: frozendict object does not support item deletion")

/-- Source method `LoggingContext.get_all` (logging.py lines 38-40): returns
`frozendict(self.data)`; the context itself is handed back unchanged
(the method only reads `self.data`). -/
def LoggingContext.get_all (ctx : LoggingContext) :
    Frozendict × LoggingContext :=
  (frozendict ctx.data, ctx)

/-- A step of interaction with a snapshot while the context is live: the
snapshot operation runs against the `frozendict` object, which shares no
mutable state with the context, so the context component passes through. -/
def snapshotStep (ctx : LoggingContext) (fd : Frozendict) (op : FrozendictOp) :
    LoggingContext × Frozendict × Except String (Option String) :=
  (ctx, fd.apply op)

/-! #### Startup configuration (logging.py lines 140-160) -/

/-- The `logging._nameToLevel` table of the Python standard library:
the only strings `Logger.setLevel` accepts, mapped to numeric levels. -/
def logging_nameToLevel : List (String × Nat) :=
  [("CRITICAL", 50), ("FATAL", 50), ("ERROR", 40), ("WARN", 30),
   ("WARNING", 30), ("INFO", 20), ("DEBUG", 10), ("NOTSET", 0)]

/-- Models `logging._checkLevel` of the Python standard library, which
`Logger.setLevel` applies to its argument: a string must be an exact key of
`_nameToLevel`, otherwise `ValueError("Unknown level: %r")` is raised. -/
def checkLevel (s : String) : Except String Nat :=
  match dictGet logging_nameToLevel s with
  | some n => Except.ok n
  | none => Except.error ("Unknown level: " ++ sq ++ s ++ sq)

/-- Source variable `log_level` (logging.py lines 143-145): the `LOG_LEVEL` environment
variable, defaulting to `"INFO"` when unset. -/
def log_level (env : Option String) : String :=
  match env with
  | none => "INFO"
  | some s => s

/-- Startup call `logging.getLogger().setLevel(log_level)`
(logging.py line 157): the resulting root-logger level, or the raised
`ValueError`. -/
def startup_root_level (env : Option String) : Except String Nat :=
  checkLevel (log_level env)

/-- Source variable `log_type` (logging.py lines 147-150): the `LOG_TYPE` environment
variable, defaulting to `"flat"` when unset. -/
def log_type (env : Option String) : String :=
  match env with
  | none => "flat"
  | some s => s

/-- Which formatter the startup code installs. -/
inductive FormatterKind where
  | logstash
  | flat
deriving DecidableEq

/-- Formatter selection at startup (logging.py lines 152-155):
`LogstashFormatter` when `log_type.lower() == "logstash"`, the default
`logging.Formatter` otherwise. -/
def chosen_formatter (env : Option String) : FormatterKind :=
  if pyLower (log_type env) == "logstash" then FormatterKind.logstash
  else FormatterKind.flat

/-! #### `LogstashFormatter.get_extra_fields` (logging.py lines 56-78) -/

/-- A Python value as seen by `get_extra_fields`: only its type tag and
identity matter there, so aggregate payloads are carried opaquely. -/
inductive PyValue where
  | pynone
  | pystr (s : String)
  | pybool (b : Bool)
  | pyint (n : Int)
  | pyfloat (payload : String)
  | pydict (payload : String)
  | pylist (payload : String)
  | pyother (reprStr : String)
deriving DecidableEq

/-- Source test `value is None` (logging.py line 71). -/
def PyValue.isNone : PyValue → Bool
  | .pynone => true
  | _ => false

/-- Source test `isinstance(value, (str, bool, dict, float, int, list))`
(logging.py lines 65, 73). -/
def PyValue.isPythonType : PyValue → Bool
  | .pystr _ => true
  | .pybool _ => true
  | .pydict _ => true
  | .pyfloat _ => true
  | .pyint _ => true
  | .pylist _ => true
  | _ => false

/-- Source call `repr(value)` (logging.py line 76); within `get_extra_fields` it is
only reached for values outside `python_types`, whose repr the model
carries in the constructor. -/
def PyValue.pyrepr : PyValue → String
  | .pynone => "None"
  | .pystr s => sq ++ s ++ sq
  | .pybool b => if b then "True" else "False"
  | .pyint n => toString n
  | .pyfloat payload => payload
  | .pydict payload => payload
  | .pylist payload => payload
  | .pyother reprStr => reprStr

/-- Source tuple `ignore_fields` (logging.py lines 59-63), duplicate `msecs` included
as written. -/
def ignore_fields : List String :=
  ["args", "asctime", "created", "exc_info", "exc_text", "filename",
   "funcName", "id", "levelname", "levelno", "lineno", "module",
   "msecs", "msecs", "message", "msg", "name", "pathname", "process",
   "processName", "relativeCreated", "thread", "threadName", "extra"]

/-- Source method `LogstashFormatter.get_extra_fields` (logging.py lines 56-78):
iterate `record.__dict__.items()`, skip ignored keys, map `None` to the
string `"None"`, pass the scalar/container types through, and stringify
everything else with `repr`. -/
def get_extra_fields (record : List (String × PyValue)) :
    List (String × PyValue) :=
  record.foldl
    (fun fields kv =>
      if ignore_fields.contains kv.1 then fields
      else if kv.2.isNone then dictSet fields kv.1 (PyValue.pystr "None")
      else if kv.2.isPythonType then dictSet fields kv.1 kv.2
      else dictSet fields kv.1 (PyValue.pystr kv.2.pyrepr))
    []

/-! ### `ignition/service/infrastructure.py` (modelled from the spec)

The infrastructure module itself is not in the tree; only its unit tests
are.  Its data model and operations are therefore modelled from the
specification (sections 3, 4.1-4.4), cross-checked against the expectations
of `tests/unit/service/test_infrastructure.py`. -/

/-- A deployment location: a mapping identifying the target backend. -/
def DeploymentLocation : Type := List (String × String)

instance : DecidableEq DeploymentLocation :=
  inferInstanceAs (DecidableEq (List (String × String)))

/-- Property Value Map payload: the service forwards whatever shape it
receives, so entries are carried opaquely. -/
def Props : Type := List (String × String)

instance : DecidableEq Props :=
  inferInstanceAs (DecidableEq (List (String × String)))

/-- Task status (spec section 3): `IN_PROGRESS`, `COMPLETE` or `FAILED`. -/
inductive TaskStatus where
  | in_progress
  | complete
  | failed
deriving DecidableEq

/-- The wire form of a task status. -/
def TaskStatus.str : TaskStatus → String
  | .in_progress => "IN_PROGRESS"
  | .complete => "COMPLETE"
  | .failed => "FAILED"

/-- Failure details (spec section 3): `{failure_code, description}`. -/
structure FailureDetails where
  failure_code : String
  description : String
deriving DecidableEq

/-- Modelled from the spec: an `InfrastructureTask` as returned by driver
polls (spec section 3). -/
structure InfrastructureTask where
  infrastructure_id : String
  request_id : String
  status : TaskStatus
  failure_details : Option FailureDetails
  outputs : Option (List (String × String))
deriving DecidableEq

/-! #### Task Monitoring Service (spec section 4.3) -/

/-- A monitoring job as delivered by the job queue: a mapping that may or
may not carry each of the three fields the handler needs. -/
structure MonitoringJob where
  job_type : String
  infrastructure_id : Option String
  request_id : Option String
  deployment_location : Option DeploymentLocation
deriving DecidableEq

/-- The outcome of one `driver.get_infrastructure_task` poll, as classified
by the handler truth table (spec section 4.3): one of the four named
exceptions, a returned task, or any other exception. -/
inductive DriverPollOutcome where
  | temporaryInfrastructureError (msg : String)
  | unreachableDeploymentLocationError (msg : String)
  | infrastructureNotFoundError (msg : String)
  | infrastructureRequestNotFoundError (msg : String)
  | task (t : InfrastructureTask)
  | otherError (msg : String)
deriving DecidableEq

instance {ε α : Type} [DecidableEq ε] [DecidableEq α] : DecidableEq (Except ε α) :=
  fun a b =>
    match a, b with
    | .ok x, .ok y =>
      if h : x = y then isTrue (by rw [h]) else isFalse (by intro hc; cases hc; exact h rfl)
    | .error x, .error y =>
      if h : x = y then isTrue (by rw [h]) else isFalse (by intro hc; cases hc; exact h rfl)
    | .ok _, .error _ => isFalse (by intro hc; cases hc)
    | .error _, .ok _ => isFalse (by intro hc; cases hc)

/-- What one delivery of a monitoring job did: the returned "job finished"
flag (or a propagated exception), how many times the driver was polled, and
the tasks passed to `send_infrastructure_task`. -/
structure HandlerResult where
  job_finished : Except String Bool
  driver_calls : Nat
  sent_tasks : List InfrastructureTask
deriving DecidableEq

/-- Modelled from the spec: `InfrastructureTaskMonitoringService.job_handler`
(spec section 4.3).  A job missing any of `infrastructure_id`, `request_id`,
`deployment_location` is discarded (return `true`, no driver call, no
event); otherwise the driver is polled once, transient errors return
`false`, not-found errors return `true`, an `IN_PROGRESS` task returns
`false`, a `COMPLETE` or `FAILED` task is published and returns `true`, and
any other exception propagates. -/
def job_handler (job : MonitoringJob) (driver : DriverPollOutcome) :
    HandlerResult :=
  match job.infrastructure_id, job.request_id, job.deployment_location with
  | some _, some _, some _ =>
    match driver with
    | .temporaryInfrastructureError _ => ⟨Except.ok false, 1, []⟩
    | .unreachableDeploymentLocationError _ => ⟨Except.ok false, 1, []⟩
    | .infrastructureNotFoundError _ => ⟨Except.ok true, 1, []⟩
    | .infrastructureRequestNotFoundError _ => ⟨Except.ok true, 1, []⟩
    | .task t =>
      match t.status with
      | .in_progress => ⟨Except.ok false, 1, []⟩
      | .complete => ⟨Except.ok true, 1, [t]⟩
      | .failed => ⟨Except.ok true, 1, [t]⟩
    | .otherError msg => ⟨Except.error msg, 1, []⟩
  | _, _, _ => ⟨Except.ok true, 0, []⟩

/-! #### Infrastructure Service (spec section 4.2) -/

/-- The configuration flags the Infrastructure Service branches on. -/
structure InfrastructureConfig where
  async_messaging_enabled : Bool
  request_queue_enabled : Bool
deriving DecidableEq

/-- Modelled from the spec: `CreateInfrastructureResponse`
`{infrastructure_id, request_id}`.  The fields are optional so that a
Python `None` is representable. -/
structure CreateInfrastructureResponse where
  infrastructure_id : Option String
  request_id : Option String
deriving DecidableEq

/-- Modelled from the spec: `DeleteInfrastructureResponse`
`{infrastructure_id, request_id}`. -/
structure DeleteInfrastructureResponse where
  infrastructure_id : Option String
  request_id : Option String
deriving DecidableEq

/-- Modelled from the spec: an Infrastructure Request built when a create
request is placed on the request queue (spec section 3). -/
structure InfrastructureRequest where
  request_id : Option String
  infrastructure_id : Option String
  template : String
  template_type : String
  properties : Props
  system_properties : Props
  deployment_location : DeploymentLocation
deriving DecidableEq

/-- The arguments of one `driver.create_infrastructure` call. -/
structure CreateCall where
  template : String
  template_type : String
  system_properties : Props
  properties : Props
  deployment_location : DeploymentLocation
deriving DecidableEq

/-- The arguments of one `driver.delete_infrastructure` call. -/
structure DeleteCall where
  infrastructure_id : String
  deployment_location : DeploymentLocation
deriving DecidableEq

/-- The arguments of one `monitor_service.monitor_task` call. -/
structure MonitorCall where
  infrastructure_id : Option String
  request_id : Option String
  deployment_location : DeploymentLocation
deriving DecidableEq

/-- Everything a call to `InfrastructureService.create_infrastructure`
did: driver calls, queued requests, monitor calls and the response. -/
structure CreateOutcome where
  driver_calls : List CreateCall
  queued_requests : List InfrastructureRequest
  monitor_calls : List MonitorCall
  response : CreateInfrastructureResponse
deriving DecidableEq

/-- Everything a call to `InfrastructureService.delete_infrastructure`
did. -/
structure DeleteOutcome where
  driver_calls : List DeleteCall
  queued_requests : List InfrastructureRequest
  monitor_calls : List MonitorCall
  response : DeleteInfrastructureResponse
deriving DecidableEq

/-- Modelled from the spec: `InfrastructureService.create_infrastructure`
(spec section 4.2).  Request queue wins over async messaging: with the
queue enabled the two identifiers are generated (`uuid_inf`, `uuid_req`
stand for the `uuid4()` draws), the request is enqueued and the driver is
not called; otherwise the driver is called synchronously (as the function
`driver_create`) and, when async messaging is enabled, a monitor task is
scheduled with the identifiers of the driver's response. -/
def InfrastructureService.create_infrastructure
    (cfg : InfrastructureConfig) (uuid_inf uuid_req : String)
    (driver_create : CreateCall → CreateInfrastructureResponse)
    (template template_type : String) (system_properties properties : Props)
    (deployment_location : DeploymentLocation) : CreateOutcome :=
  if cfg.request_queue_enabled then
    { driver_calls := []
      queued_requests := [{ request_id := some uuid_req
                            infrastructure_id := some uuid_inf
                            template := template
                            template_type := template_type
                            properties := properties
                            system_properties := system_properties
                            deployment_location := deployment_location }]
      monitor_calls := []
      response := ⟨some uuid_inf, some uuid_req⟩ }
  else
    let call : CreateCall :=
      ⟨template, template_type, system_properties, properties, deployment_location⟩
    let resp := driver_create call
    { driver_calls := [call]
      queued_requests := []
      monitor_calls :=
        if cfg.async_messaging_enabled then
          [⟨resp.infrastructure_id, resp.request_id, deployment_location⟩]
        else []
      response := resp }

/-- Modelled from the spec: `InfrastructureService.delete_infrastructure`
(spec section 4.2), with the same mode precedence as create; on the queue
path only `request_id` is generated. -/
def InfrastructureService.delete_infrastructure
    (cfg : InfrastructureConfig) (uuid_req : String)
    (driver_delete : DeleteCall → DeleteInfrastructureResponse)
    (infrastructure_id : String)
    (deployment_location : DeploymentLocation) : DeleteOutcome :=
  if cfg.request_queue_enabled then
    { driver_calls := []
      queued_requests := [{ request_id := some uuid_req
                            infrastructure_id := some infrastructure_id
                            template := ""
                            template_type := ""
                            properties := []
                            system_properties := []
                            deployment_location := deployment_location }]
      monitor_calls := []
      response := ⟨some infrastructure_id, some uuid_req⟩ }
  else
    let call : DeleteCall := ⟨infrastructure_id, deployment_location⟩
    let resp := driver_delete call
    { driver_calls := [call]
      queued_requests := []
      monitor_calls :=
        if cfg.async_messaging_enabled then
          [⟨resp.infrastructure_id, resp.request_id, deployment_location⟩]
        else []
      response := resp }

/-! #### API Facade (spec section 4.1) -/

/-- The four operations exposed by `InfrastructureApiService`. -/
inductive ApiOp where
  | create
  | delete
  | query
  | find
deriving DecidableEq

/-- Modelled from the spec: the required body fields of each operation, in
the order of the table of section 4.1. -/
def requiredFields : ApiOp → List String
  | .create => ["template", "templateType", "systemProperties", "deploymentLocation"]
  | .delete => ["infrastructureId", "deploymentLocation"]
  | .query => ["infrastructureId", "requestId", "deploymentLocation"]
  | .find => ["template", "templateType", "instanceName", "deploymentLocation"]

/-- The success HTTP status of each operation (spec section 4.1). -/
def successStatus : ApiOp → Nat
  | .create => 202
  | .delete => 202
  | .query => 200
  | .find => 200

/-- The literal `BadRequest` message for a missing required field. -/
def badRequestMsg (field : String) : String :=
  sq ++ field ++ sq ++ " is a required field but was not found in the request data body"

/-- What one facade invocation did: the raised `BadRequest` message or the
success status, and how many times the Infrastructure Service was
invoked. -/
structure ApiOutcome where
  outcome : Except String Nat
  service_calls : Nat
deriving DecidableEq

/-- Modelled from the spec: the required-field validation step of each
facade operation (spec section 4.1).  The body is abstracted to the set of
field names it carries; the first required field absent from the body
raises `BadRequest` before the Infrastructure Service is invoked. -/
def api_handle (op : ApiOp) (body : List String) : ApiOutcome :=
  match (requiredFields op).find? (fun f => !(body.contains f)) with
  | some f => ⟨Except.error (badRequestMsg f), 0⟩
  | none => ⟨Except.ok (successStatus op), 1⟩

/-! #### Infrastructure Messaging Service (spec section 4.4) -/

/-- A Message/Envelope pair as handed to the postal service: the topic
address and the message content (a UTF-8 JSON string). -/
structure Envelope where
  address : String
  content : String
deriving DecidableEq

/-- A JSON string member, `"k": "v"`. -/
def jsonStrField (k v : String) : String :=
  "\"" ++ k ++ "\": \"" ++ v ++ "\""

/-- A JSON object of string members. -/
def jsonObj (ps : List (String × String)) : String :=
  "\x7b" ++ String.intercalate ", " (ps.map (fun p => jsonStrField p.1 p.2)) ++ "\x7d"

/-- Modelled from the spec: the serialized event body of
`send_infrastructure_task` (spec section 4.4): `requestId`,
`infrastructureId`, `status` in that order, then `outputs` iff non-null,
then `failureDetails` iff the status is `FAILED`; the concrete punctuation
is Python `json.dumps` of that object. -/
def infrastructure_task_content (t : InfrastructureTask) : String :=
  "\x7b\"requestId\": \"" ++ t.request_id
    ++ "\", \"infrastructureId\": \"" ++ t.infrastructure_id
    ++ "\", \"status\": \"" ++ t.status.str ++ "\""
    ++ (match t.outputs with
        | some outs => ", \"outputs\": " ++ jsonObj outs
        | none => "")
    ++ (match t.status, t.failure_details with
        | .failed, some fd =>
          ", \"failureDetails\": \x7b\"failureCode\": \"" ++ fd.failure_code
            ++ "\", \"description\": \"" ++ fd.description ++ "\"\x7d"
        | _, _ => "")
    ++ "\x7d"

/-- Modelled from the spec: `InfrastructureMessagingService.
send_infrastructure_task` (spec section 4.4): a `None` task raises
`ValueError` and nothing is posted; otherwise exactly one Envelope is
posted to the configured `infrastructure_task_events` topic, its content
the serialized task. -/
def send_infrastructure_task (topic_name : String)
    (task : Option InfrastructureTask) : Except String (List Envelope) :=
  match task with
  | none =>
    Except.error "infrastructure_task must be set to send an infrastructure task event"
  | some t => Except.ok [⟨topic_name, infrastructure_task_content t⟩]

/-! ### Theorems -/

/-- C7: the value returned by `LoggingContext.get_all()` is an immutable
snapshot: it equals the context's data at the time it is taken, taking it
leaves the context unchanged, every attempt to mutate the snapshot fails
with a `TypeError`, and no operation performed on the snapshot changes the
snapshot or the underlying context. -/
theorem c7_get_all_immutable_snapshot (ctx : LoggingContext) (fd : Frozendict)
    (op : FrozendictOp) :
    (ctx.get_all).2 = ctx ∧
    (ctx.get_all).1.entries = ctx.data ∧
    (snapshotStep ctx fd op).1 = ctx ∧
    (snapshotStep ctx fd op).2.1 = fd ∧
    (op.isMutation = true → ∃ e, (snapshotStep ctx fd op).2.2 = Except.error e) := by
  refine ⟨rfl, rfl, rfl, ?_, ?_⟩
  · cases op <;> rfl
  · intro hmut
    cases op with
    | getitem k => exact absurd hmut (by simp [FrozendictOp.isMutation])
    | setitem k v =>
      exact ⟨"TypeError: frozendict object does not support item assignment", rfl⟩
    | delitem k =>
      exact ⟨"TypeError: frozendict object does not support item deletion", rfl⟩

/-- C7 witness: a concrete snapshot of a one-entry context; the mutation
attempt fails and both the snapshot and the context are untouched. -/
theorem c7_witness :
    (FrozendictOp.setitem "a" "2").isMutation = true ∧
    (snapshotStep ⟨[("a", "1")]⟩ ⟨[("a", "1")]⟩ (FrozendictOp.setitem "a" "2")).1
      = (⟨[("a", "1")]⟩ : LoggingContext) ∧
    ∃ e, (snapshotStep ⟨[("a", "1")]⟩ ⟨[("a", "1")]⟩
      (FrozendictOp.setitem "a" "2")).2.2 = Except.error e := by
  have h := c7_get_all_immutable_snapshot ⟨[("a", "1")]⟩ ⟨[("a", "1")]⟩
    (FrozendictOp.setitem "a" "2")
  exact ⟨rfl, h.2.2.1, h.2.2.2.2 rfl⟩

/-- C8 counterexample: the startup code passes `LOG_LEVEL` verbatim to
`Logger.setLevel`, which only accepts the exact level names; the lowercase
variant `info` does not set level INFO (20) but raises
`ValueError("Unknown level: 'info'")`. -/
theorem c8_counterexample :
    startup_root_level (some "INFO") = Except.ok 20 ∧
    startup_root_level (some "info") ≠ Except.ok 20 ∧
    startup_root_level (some "info") =
      Except.error ("Unknown level: " ++ sq ++ "info" ++ sq) := by
  refine ⟨by decide, by decide, by decide⟩

/-- C8 (amended): at startup the root logger level is taken from the
`LOG_LEVEL` environment variable verbatim (case-sensitively): an exact
level name of Python's `logging` module sets its numeric level, any other
value (including lowercase variants of valid names) raises `ValueError`,
and when `LOG_LEVEL` is unset the level defaults to INFO. -/
theorem c8_log_level_verbatim (env : Option String) :
    (env = none → startup_root_level env = Except.ok 20) ∧
    (∀ s n, env = some s → (s, n) ∈ logging_nameToLevel →
      startup_root_level env = Except.ok n) ∧
    (∀ s, env = some s → (∀ n, (s, n) ∉ logging_nameToLevel) →
      startup_root_level env = Except.error ("Unknown level: " ++ sq ++ s ++ sq)) := by
  refine ⟨?_, ?_, ?_⟩
  · rintro rfl
    decide
  · rintro s n rfl hmem
    have hget := dictGet_of_mem logging_nameToLevel s n (by decide) hmem
    simp [startup_root_level, log_level, checkLevel, hget]
  · rintro s rfl hnot
    have h1 : s ≠ "CRITICAL" := fun h => hnot 50 (by rw [h]; simp [logging_nameToLevel])
    have h2 : s ≠ "FATAL" := fun h => hnot 50 (by rw [h]; simp [logging_nameToLevel])
    have h3 : s ≠ "ERROR" := fun h => hnot 40 (by rw [h]; simp [logging_nameToLevel])
    have h4 : s ≠ "WARN" := fun h => hnot 30 (by rw [h]; simp [logging_nameToLevel])
    have h5 : s ≠ "WARNING" := fun h => hnot 30 (by rw [h]; simp [logging_nameToLevel])
    have h6 : s ≠ "INFO" := fun h => hnot 20 (by rw [h]; simp [logging_nameToLevel])
    have h7 : s ≠ "DEBUG" := fun h => hnot 10 (by rw [h]; simp [logging_nameToLevel])
    have h8 : s ≠ "NOTSET" := fun h => hnot 0 (by rw [h]; simp [logging_nameToLevel])
    have hget : dictGet logging_nameToLevel s = none := by
      simp only [logging_nameToLevel, dictGet, beq_iff_eq]
      rw [if_neg (Ne.symm h1), if_neg (Ne.symm h2), if_neg (Ne.symm h3),
        if_neg (Ne.symm h4), if_neg (Ne.symm h5), if_neg (Ne.symm h6),
        if_neg (Ne.symm h7), if_neg (Ne.symm h8)]
    simp [startup_root_level, log_level, checkLevel, hget]

/-- C8 amended witness: `LOG_LEVEL=DEBUG` sets level 10 and an unset
`LOG_LEVEL` defaults to INFO (20). -/
theorem c8_log_level_verbatim_witness :
    startup_root_level (some "DEBUG") = Except.ok 10 ∧
    startup_root_level none = Except.ok 20 :=
  ⟨(c8_log_level_verbatim (some "DEBUG")).2.1 "DEBUG" 10 rfl (by decide),
   (c8_log_level_verbatim none).1 rfl⟩

/-- C10: formatter selection at startup is case-insensitive on `LOG_TYPE`:
the `LogstashFormatter` is installed exactly when the variable is set to a
value whose lowercase form is `logstash`; every other value, and an unset
variable, installs the default flat `logging.Formatter`. -/
theorem c10_formatter_selection (env : Option String) :
    (chosen_formatter env = FormatterKind.logstash ↔
      ∃ s, env = some s ∧ pyLower s = "logstash") ∧
    chosen_formatter none = FormatterKind.flat := by
  refine ⟨?_, by decide⟩
  cases env with
  | none =>
    constructor
    · intro h
      exact absurd h (by decide)
    · rintro ⟨s, hs, _⟩
      cases hs
  | some s =>
    by_cases hc : pyLower s = "logstash"
    · simp [chosen_formatter, log_type, hc]
    · simp [chosen_formatter, log_type, hc]

/-- C10 witness: `LOG_TYPE=LOGSTASH` installs the logstash formatter while
`LOG_TYPE=other` installs the flat one. -/
theorem c10_witness :
    chosen_formatter (some "LOGSTASH") = FormatterKind.logstash ∧
    chosen_formatter (some "other") = FormatterKind.flat := by
  constructor
  · exact (c10_formatter_selection (some "LOGSTASH")).1.mpr
      ⟨"LOGSTASH", rfl, by decide⟩
  · cases hc : chosen_formatter (some "other") with
    | logstash =>
      obtain ⟨s, hs, hl⟩ := (c10_formatter_selection (some "other")).1.mp hc
      cases hs
      exact absurd hl (by decide)
    | flat => rfl

/-- C1: the monitoring job handler truth table.  For a job carrying all of
`infrastructure_id`, `request_id`, `deployment_location`: transient driver
errors and an `IN_PROGRESS` task return `false` with no event; not-found
driver errors return `true` with no event; a `COMPLETE` or `FAILED` task
returns `true` after exactly one `send_infrastructure_task` call with that
task.  A job missing any of the three fields returns `true` with no driver
call and no event. -/
theorem c1_job_handler_truth_table (job : MonitoringJob)
    (driver : DriverPollOutcome) :
    ((job.infrastructure_id.isSome ∧ job.request_id.isSome ∧
        job.deployment_location.isSome) →
      ((∀ m, driver = DriverPollOutcome.temporaryInfrastructureError m →
          job_handler job driver = ⟨Except.ok false, 1, []⟩) ∧
       (∀ m, driver = DriverPollOutcome.unreachableDeploymentLocationError m →
          job_handler job driver = ⟨Except.ok false, 1, []⟩) ∧
       (∀ t, driver = DriverPollOutcome.task t →
          t.status = TaskStatus.in_progress →
          job_handler job driver = ⟨Except.ok false, 1, []⟩) ∧
       (∀ m, driver = DriverPollOutcome.infrastructureNotFoundError m →
          job_handler job driver = ⟨Except.ok true, 1, []⟩) ∧
       (∀ m, driver = DriverPollOutcome.infrastructureRequestNotFoundError m →
          job_handler job driver = ⟨Except.ok true, 1, []⟩) ∧
       (∀ t, driver = DriverPollOutcome.task t →
          (t.status = TaskStatus.complete ∨ t.status = TaskStatus.failed) →
          job_handler job driver = ⟨Except.ok true, 1, [t]⟩))) ∧
    (¬(job.infrastructure_id.isSome ∧ job.request_id.isSome ∧
        job.deployment_location.isSome) →
      job_handler job driver = ⟨Except.ok true, 0, []⟩) := by
  rcases job with ⟨jt, ji, jr, jd⟩
  constructor
  · rintro ⟨h1, h2, h3⟩
    rcases Option.isSome_iff_exists.mp h1 with ⟨i, rfl⟩
    rcases Option.isSome_iff_exists.mp h2 with ⟨r, rfl⟩
    rcases Option.isSome_iff_exists.mp h3 with ⟨d, rfl⟩
    refine ⟨?_, ?_, ?_, ?_, ?_, ?_⟩
    · rintro m rfl; rfl
    · rintro m rfl; rfl
    · rintro t rfl hst
      simp [job_handler, hst]
    · rintro m rfl; rfl
    · rintro m rfl; rfl
    · rintro t rfl hst
      rcases hst with h | h <;> simp [job_handler, h]
  · intro h
    cases ji with
    | none => rfl
    | some i =>
      cases jr with
      | none => rfl
      | some r =>
        cases jd with
        | none => rfl
        | some d => exact absurd ⟨rfl, rfl, rfl⟩ h

/-- C1 witness: a complete job whose poll returns a COMPLETE task is
finished after one driver call and one published event; a job without an
`infrastructure_id` is finished with no driver call and no event. -/
theorem c1_witness :
    job_handler
        ⟨"InfrastructureTaskMonitoring", some "inf123", some "req123",
          some [("name", "TestDl")]⟩
        (DriverPollOutcome.task
          ⟨"inf123", "req123", TaskStatus.complete, none, none⟩) =
      ⟨Except.ok true, 1, [⟨"inf123", "req123", TaskStatus.complete, none, none⟩]⟩ ∧
    job_handler
        ⟨"InfrastructureTaskMonitoring", none, some "req123",
          some [("name", "TestDl")]⟩
        (DriverPollOutcome.task
          ⟨"inf123", "req123", TaskStatus.complete, none, none⟩) =
      ⟨Except.ok true, 0, []⟩ := by
  constructor
  · exact ((c1_job_handler_truth_table
        ⟨"InfrastructureTaskMonitoring", some "inf123", some "req123",
          some [("name", "TestDl")]⟩
        (DriverPollOutcome.task
          ⟨"inf123", "req123", TaskStatus.complete, none, none⟩)).1
      ⟨rfl, rfl, rfl⟩).2.2.2.2.2 _ rfl (Or.inl rfl)
  · exact (c1_job_handler_truth_table
        ⟨"InfrastructureTaskMonitoring", none, some "req123",
          some [("name", "TestDl")]⟩
        (DriverPollOutcome.task
          ⟨"inf123", "req123", TaskStatus.complete, none, none⟩)).2
      (by simp)

/-- C2: with the request queue enabled, `create_infrastructure` never calls
the driver; exactly one request is queued, carrying the template, template
type, properties, system properties and deployment location of the call
together with non-null generated identifiers that equal the identifiers of
the returned response. -/
theorem c2_create_with_request_queue (cfg : InfrastructureConfig)
    (uuid_inf uuid_req : String)
    (driver_create : CreateCall → CreateInfrastructureResponse)
    (template template_type : String) (system_properties properties : Props)
    (dl : DeploymentLocation)
    (hq : cfg.request_queue_enabled = true) :
    (InfrastructureService.create_infrastructure cfg uuid_inf uuid_req
        driver_create template template_type system_properties properties
        dl).driver_calls = [] ∧
    (InfrastructureService.create_infrastructure cfg uuid_inf uuid_req
        driver_create template template_type system_properties properties
        dl).queued_requests =
      [{ request_id := some uuid_req, infrastructure_id := some uuid_inf,
         template := template, template_type := template_type,
         properties := properties, system_properties := system_properties,
         deployment_location := dl }] ∧
    (∀ r ∈ (InfrastructureService.create_infrastructure cfg uuid_inf uuid_req
        driver_create template template_type system_properties properties
        dl).queued_requests,
      r.infrastructure_id.isSome ∧ r.request_id.isSome ∧
      r.infrastructure_id =
        (InfrastructureService.create_infrastructure cfg uuid_inf uuid_req
          driver_create template template_type system_properties properties
          dl).response.infrastructure_id ∧
      r.request_id =
        (InfrastructureService.create_infrastructure cfg uuid_inf uuid_req
          driver_create template template_type system_properties properties
          dl).response.request_id) := by
  simp [InfrastructureService.create_infrastructure, hq]

/-- C2 witness: a concrete queued create returns the generated identifiers
and queues exactly that request. -/
theorem c2_witness :
    (InfrastructureService.create_infrastructure ⟨false, true⟩ "uuid-inf"
        "uuid-req" (fun _ => ⟨some "x", some "y"⟩) "template" "TOSCA"
        [("resourceId", "1")] [("propA", "valueA")]
        [("name", "TestDl")]).driver_calls = [] ∧
    (InfrastructureService.create_infrastructure ⟨false, true⟩ "uuid-inf"
        "uuid-req" (fun _ => ⟨some "x", some "y"⟩) "template" "TOSCA"
        [("resourceId", "1")] [("propA", "valueA")]
        [("name", "TestDl")]).queued_requests =
      [{ request_id := some "uuid-req", infrastructure_id := some "uuid-inf",
         template := "template", template_type := "TOSCA",
         properties := [("propA", "valueA")],
         system_properties := [("resourceId", "1")],
         deployment_location := [("name", "TestDl")] }] := by
  have h := c2_create_with_request_queue ⟨false, true⟩ "uuid-inf" "uuid-req"
    (fun _ => ⟨some "x", some "y"⟩) "template" "TOSCA"
    [("resourceId", "1")] [("propA", "valueA")] [("name", "TestDl")] rfl
  exact ⟨h.1, h.2.1⟩

/-- C3: with async messaging enabled and the request queue disabled, both
`create_infrastructure` and `delete_infrastructure` call the driver exactly
once, return the driver's response, and schedule exactly one monitor task
with `(response.infrastructure_id, response.request_id,
deployment_location)`. -/
theorem c3_async_monitor (cfg : InfrastructureConfig)
    (uuid_inf uuid_req : String)
    (driver_create : CreateCall → CreateInfrastructureResponse)
    (driver_delete : DeleteCall → DeleteInfrastructureResponse)
    (template template_type : String) (system_properties properties : Props)
    (infrastructure_id : String) (dl : DeploymentLocation)
    (ha : cfg.async_messaging_enabled = true)
    (hq : cfg.request_queue_enabled = false) :
    ((InfrastructureService.create_infrastructure cfg uuid_inf uuid_req
        driver_create template template_type system_properties properties
        dl).driver_calls =
      [⟨template, template_type, system_properties, properties, dl⟩] ∧
     (InfrastructureService.create_infrastructure cfg uuid_inf uuid_req
        driver_create template template_type system_properties properties
        dl).response =
      driver_create ⟨template, template_type, system_properties, properties, dl⟩ ∧
     (InfrastructureService.create_infrastructure cfg uuid_inf uuid_req
        driver_create template template_type system_properties properties
        dl).monitor_calls =
      [⟨(driver_create ⟨template, template_type, system_properties,
            properties, dl⟩).infrastructure_id,
        (driver_create ⟨template, template_type, system_properties,
            properties, dl⟩).request_id, dl⟩]) ∧
    ((InfrastructureService.delete_infrastructure cfg uuid_req driver_delete
        infrastructure_id dl).driver_calls = [⟨infrastructure_id, dl⟩] ∧
     (InfrastructureService.delete_infrastructure cfg uuid_req driver_delete
        infrastructure_id dl).response =
      driver_delete ⟨infrastructure_id, dl⟩ ∧
     (InfrastructureService.delete_infrastructure cfg uuid_req driver_delete
        infrastructure_id dl).monitor_calls =
      [⟨(driver_delete ⟨infrastructure_id, dl⟩).infrastructure_id,
        (driver_delete ⟨infrastructure_id, dl⟩).request_id, dl⟩]) := by
  constructor
  · refine ⟨?_, ?_, ?_⟩ <;>
      simp [InfrastructureService.create_infrastructure, ha, hq]
  · refine ⟨?_, ?_, ?_⟩ <;>
      simp [InfrastructureService.delete_infrastructure, ha, hq]

/-- C3 witness: the async create and delete of the unit tests, with a
driver answering `("test", "test_req")`: the driver is called once and the
monitor is scheduled with `("test", "test_req", deployment location)`. -/
theorem c3_witness :
    (InfrastructureService.create_infrastructure ⟨true, false⟩ "u1" "u2"
        (fun _ => ⟨some "test", some "test_req"⟩) "template" "TOSCA"
        [("resourceId", "1")] [("propA", "valueA")]
        [("name", "TestDl")]).monitor_calls =
      [⟨some "test", some "test_req", [("name", "TestDl")]⟩] ∧
    (InfrastructureService.delete_infrastructure ⟨true, false⟩ "u2"
        (fun _ => ⟨some "test", some "test_req"⟩) "test"
        [("name", "TestDl")]).monitor_calls =
      [⟨some "test", some "test_req", [("name", "TestDl")]⟩] := by
  have h := c3_async_monitor ⟨true, false⟩ "u1" "u2"
    (fun _ => ⟨some "test", some "test_req"⟩)
    (fun _ => ⟨some "test", some "test_req"⟩) "template" "TOSCA"
    [("resourceId", "1")] [("propA", "valueA")] "test" [("name", "TestDl")]
    rfl rfl
  exact ⟨h.1.2.2, h.2.2.2⟩

theorem find?_eq_of_unique {l : List String} {p : String → Bool} {f : String}
    (hmem : f ∈ l) (hf : p f = true)
    (hothers : ∀ g ∈ l, g ≠ f → p g = false) :
    l.find? p = some f := by
  induction l with
  | nil => simp at hmem
  | cons a rest ih =>
    by_cases ha : a = f
    · subst ha
      exact List.find?_cons_of_pos _ hf
    · have hpa : p a = false := hothers a (List.mem_cons_self _ _) ha
      rw [List.find?_cons_of_neg _ (by simp [hpa])]
      have hmem2 : f ∈ rest := by
        rcases List.mem_cons.mp hmem with h | h
        · exact absurd h.symm ha
        · exact h
      exact ih hmem2 (fun g hg => hothers g (List.mem_cons_of_mem _ hg))

/-- C4: for each of the four facade operations, a request body missing one
of the operation's required fields (and carrying the others) raises
`BadRequest` with the literal message
`'<field>' is a required field but was not found in the request data body`
and does not invoke the Infrastructure Service. -/
theorem c4_missing_required_field (op : ApiOp) (body : List String)
    (f : String) (hreq : f ∈ requiredFields op) (hmiss : f ∉ body)
    (hothers : ∀ g ∈ requiredFields op, g ≠ f → g ∈ body) :
    api_handle op body = ⟨Except.error (badRequestMsg f), 0⟩ := by
  unfold api_handle
  rw [find?_eq_of_unique hreq (by simp [hmiss])
    (fun g hg hne => by simp [hothers g hg hne])]

/-- C4 witness: a create body without `template` (but with the other
required fields) is rejected with the literal message and zero service
invocations. -/
theorem c4_witness :
    api_handle ApiOp.create
        ["templateType", "systemProperties", "properties", "deploymentLocation"] =
      ⟨Except.error (sq ++ "template" ++ sq ++
        " is a required field but was not found in the request data body"), 0⟩ :=
  c4_missing_required_field ApiOp.create
    ["templateType", "systemProperties", "properties", "deploymentLocation"]
    "template" (by decide) (by decide) (by decide)

/-- C5: for every task with status FAILED, failure details and no outputs,
`send_infrastructure_task` posts exactly one Envelope addressed to the
configured `infrastructure_task_events` topic whose content is the JSON
object with fields `requestId`, `infrastructureId`, `status`,
`failureDetails \x7bfailureCode, description\x7d` in that order; a `None`
task is rejected with the `ValueError` message and nothing is posted. -/
theorem c5_send_infrastructure_task (topic : String)
    (t : InfrastructureTask) (fd : FailureDetails)
    (hst : t.status = TaskStatus.failed)
    (hfd : t.failure_details = some fd) (hout : t.outputs = none) :
    send_infrastructure_task topic (some t) =
      Except.ok [⟨topic,
        "\x7b\"requestId\": \"" ++ t.request_id
          ++ "\", \"infrastructureId\": \"" ++ t.infrastructure_id
          ++ "\", \"status\": \"" ++ "FAILED" ++ "\""
          ++ ", \"failureDetails\": \x7b\"failureCode\": \"" ++ fd.failure_code
          ++ "\", \"description\": \"" ++ fd.description ++ "\"\x7d"
          ++ "\x7d"⟩] ∧
    send_infrastructure_task topic none =
      Except.error
        "infrastructure_task must be set to send an infrastructure task event" := by
  refine ⟨?_, rfl⟩
  simp only [send_infrastructure_task, infrastructure_task_content, hst, hfd,
    hout, TaskStatus.str, Except.ok.injEq, List.cons.injEq, and_true,
    Envelope.mk.injEq, true_and]
  simp [← String.append_assoc]

/-- C5 witness: the FAILED task of the unit test serializes to the exact
byte string asserted there, addressed to `task_events_topic`. -/
theorem c5_witness :
    send_infrastructure_task "task_events_topic"
        (some ⟨"inf123", "req123", TaskStatus.failed,
          some ⟨"INFRASTRUCTURE_ERROR", "because it was meant to fail"⟩, none⟩) =
      Except.ok [⟨"task_events_topic",
        "\x7b\"requestId\": \"req123\", \"infrastructureId\": \"inf123\", \"status\": \"FAILED\", \"failureDetails\": \x7b\"failureCode\": \"INFRASTRUCTURE_ERROR\", \"description\": \"because it was meant to fail\"\x7d\x7d"⟩] := by
  have h := (c5_send_infrastructure_task "task_events_topic"
    ⟨"inf123", "req123", TaskStatus.failed,
      some ⟨"INFRASTRUCTURE_ERROR", "because it was meant to fail"⟩, none⟩
    ⟨"INFRASTRUCTURE_ERROR", "because it was meant to fail"⟩ rfl rfl rfl).1
  rw [h]
  simp

/-- C6: after `set_from_headers`, every inbound header whose name is
case-insensitively prefixed by `X-Tracectx-` with value `V` appears in the
trace context under `traceCtx.<remainder lowercased> → V` (headers mapping
to distinct context keys); headers without the prefix add no entry, and
entries of the context whose keys no inbound header produces are left
unchanged — the update merges, it does not replace. -/
theorem c6_set_from_headers (ctx : LoggingContext)
    (headers : List (String × String))
    (hkeys : ((extractTraceHeaders headers).map Prod.fst).Nodup) :
    (∀ n v, (n, v) ∈ headers → isTraceHeader n = true →
      dictGet (ctx.set_from_headers headers).data (traceKey n) = some v) ∧
    (∀ k, (∀ p ∈ headers, isTraceHeader p.1 = true → traceKey p.1 ≠ k) →
      dictGet (ctx.set_from_headers headers).data k = dictGet ctx.data k) := by
  constructor
  · intro n v hmem htrace
    have hmem2 : (traceKey n, v) ∈ extractTraceHeaders headers := by
      unfold extractTraceHeaders
      exact List.mem_map.mpr ⟨(n, v), List.mem_filter.mpr ⟨hmem, htrace⟩, rfl⟩
    exact dictGet_dictUpdate_mem _ _ _ _ hkeys hmem2
  · intro k hk
    apply dictGet_dictUpdate_not_mem
    intro kv hkv
    unfold extractTraceHeaders at hkv
    rcases List.mem_map.mp hkv with ⟨p, hpmem, hpeq⟩
    rcases List.mem_filter.mp hpmem with ⟨hpmem2, hptr⟩
    have : kv.1 = traceKey p.1 := by rw [← hpeq]
    rw [this]
    exact hk p hpmem2 hptr

/-- C6 witness: the canonical tracing header is merged into a context with
one pre-existing entry; the unrelated header adds nothing and the
pre-existing entry survives. -/
theorem c6_witness :
    dictGet ((LoggingContext.set_from_headers ⟨[("existing", "old")]⟩
        [("X-Tracectx-TransactionId", "txn1"), ("Content-Type", "json")]).data)
      "traceCtx.transactionid" = some "txn1" ∧
    dictGet ((LoggingContext.set_from_headers ⟨[("existing", "old")]⟩
        [("X-Tracectx-TransactionId", "txn1"), ("Content-Type", "json")]).data)
      "existing" = some "old" := by
  have h := c6_set_from_headers ⟨[("existing", "old")]⟩
    [("X-Tracectx-TransactionId", "txn1"), ("Content-Type", "json")]
    (by decide)
  constructor
  · have h1 := h.1 "X-Tracectx-TransactionId" "txn1" (by decide) (by decide)
    have hkey : traceKey "X-Tracectx-TransactionId" = "traceCtx.transactionid" := by decide
    rw [hkey] at h1
    exact h1
  · have h2 := h.2 "existing" (by decide)
    rw [h2]
    decide

theorem extra_fields_foldl_not_mem (record : List (String × PyValue))
    (acc : List (String × PyValue)) (k : String)
    (h : ∀ p ∈ record, p.1 ≠ k) :
    dictGet (record.foldl
      (fun fields kv =>
        if ignore_fields.contains kv.1 then fields
        else if kv.2.isNone then dictSet fields kv.1 (PyValue.pystr "None")
        else if kv.2.isPythonType then dictSet fields kv.1 kv.2
        else dictSet fields kv.1 (PyValue.pystr kv.2.pyrepr)) acc) k =
    dictGet acc k := by
  induction record generalizing acc with
  | nil => rfl
  | cons kv rest ih =>
    have hne : kv.1 ≠ k := h kv (List.mem_cons_self _ _)
    have hrest : ∀ p ∈ rest, p.1 ≠ k := fun p hp => h p (List.mem_cons_of_mem _ hp)
    simp only [List.foldl_cons]
    rw [ih _ hrest]
    by_cases hc : ignore_fields.contains kv.1
    · rw [if_pos hc]
    · simp only [hc, Bool.false_eq_true, if_false]
      by_cases hn : kv.2.isNone
      · simp only [hn, if_true]
        exact dictGet_dictSet_ne _ _ _ _ hne
      · simp only [hn, Bool.false_eq_true, if_false]
        by_cases hp : kv.2.isPythonType
        · simp only [hp, if_true]
          exact dictGet_dictSet_ne _ _ _ _ hne
        · simp only [hp, Bool.false_eq_true, if_false]
          exact dictGet_dictSet_ne _ _ _ _ hne

/-- The value the claim expects `get_extra_fields` to store for a record
attribute: `None` becomes the string `"None"`, the scalar and container
types pass through unchanged, anything else becomes its repr string. -/
def expected_extra_value (v : PyValue) : PyValue :=
  match v with
  | .pynone => PyValue.pystr "None"
  | .pyother r => PyValue.pystr r
  | w => w

theorem extra_fields_step_eq (acc : List (String × PyValue))
    (k : String) (v : PyValue) (hig : ignore_fields.contains k = false) :
    (if ignore_fields.contains k then acc
     else if v.isNone then dictSet acc k (PyValue.pystr "None")
     else if v.isPythonType then dictSet acc k v
     else dictSet acc k (PyValue.pystr v.pyrepr)) =
    dictSet acc k (expected_extra_value v) := by
  rw [if_neg (by rw [hig]; exact Bool.false_ne_true)]
  cases v <;> simp [PyValue.isNone, PyValue.isPythonType, PyValue.pyrepr,
    expected_extra_value]

theorem extra_fields_foldl_mem (record : List (String × PyValue))
    (acc : List (String × PyValue)) (k : String) (v : PyValue)
    (hnodup : (record.map Prod.fst).Nodup) (hmem : (k, v) ∈ record)
    (hig : ignore_fields.contains k = false) :
    dictGet (record.foldl
      (fun fields kv =>
        if ignore_fields.contains kv.1 then fields
        else if kv.2.isNone then dictSet fields kv.1 (PyValue.pystr "None")
        else if kv.2.isPythonType then dictSet fields kv.1 kv.2
        else dictSet fields kv.1 (PyValue.pystr kv.2.pyrepr)) acc) k =
    some (expected_extra_value v) := by
  induction record generalizing acc with
  | nil => simp at hmem
  | cons kv rest ih =>
    rcases List.mem_cons.mp hmem with heq | hmemr
    · subst heq
      have hrest : ∀ p ∈ rest, p.1 ≠ k := by
        intro p hp hpk
        exact (List.nodup_cons.mp hnodup).1
          (by simpa [hpk] using List.mem_map_of_mem Prod.fst hp)
      simp only [List.foldl_cons]
      rw [extra_fields_foldl_not_mem rest _ _ hrest, extra_fields_step_eq _ _ _ hig]
      exact dictGet_dictSet_self _ _ _
    · simp only [List.foldl_cons]
      exact ih _ (List.nodup_cons.mp hnodup).2 hmemr

theorem extra_fields_foldl_ignored (record : List (String × PyValue))
    (acc : List (String × PyValue)) (k : String)
    (hig : k ∈ ignore_fields) (hacc : dictGet acc k = none) :
    dictGet (record.foldl
      (fun fields kv =>
        if ignore_fields.contains kv.1 then fields
        else if kv.2.isNone then dictSet fields kv.1 (PyValue.pystr "None")
        else if kv.2.isPythonType then dictSet fields kv.1 kv.2
        else dictSet fields kv.1 (PyValue.pystr kv.2.pyrepr)) acc) k = none := by
  induction record generalizing acc with
  | nil => exact hacc
  | cons kv rest ih =>
    simp only [List.foldl_cons]
    apply ih
    by_cases hc : ignore_fields.contains kv.1
    · rw [if_pos hc]
      exact hacc
    · have hne : kv.1 ≠ k := by
        intro hk
        rw [hk] at hc
        exact hc (by simpa using hig)
      simp only [hc, Bool.false_eq_true, if_false]
      by_cases hn : kv.2.isNone
      · simpa [hn, dictGet_dictSet_ne _ _ _ _ hne] using hacc
      · by_cases hp : kv.2.isPythonType
        · simpa [hn, hp, dictGet_dictSet_ne _ _ _ _ hne] using hacc
        · simpa [hn, hp, dictGet_dictSet_ne _ _ _ _ hne] using hacc

/-- C9: `get_extra_fields` drops every attribute in the ignore list and
maps each remaining record attribute as the claim states: `None` becomes
the four-character string `"None"`, values of type str, bool, dict, float,
int or list pass through unchanged, and every other value becomes its repr
string. -/
theorem c9_get_extra_fields (record : List (String × PyValue))
    (hnodup : (record.map Prod.fst).Nodup) :
    (∀ k, k ∈ ignore_fields → dictGet (get_extra_fields record) k = none) ∧
    (∀ k v, (k, v) ∈ record → k ∉ ignore_fields →
      dictGet (get_extra_fields record) k = some (expected_extra_value v)) := by
  constructor
  · intro k hig
    exact extra_fields_foldl_ignored record [] k hig rfl
  · intro k v hmem hig
    apply extra_fields_foldl_mem record [] k v hnodup hmem
    cases hco : ignore_fields.contains k with
    | false => rfl
    | true => exact absurd (List.mem_of_elem_eq_true hco) hig

/-- C9 witness: a record with an ignored attribute, a `None`, a passthrough
string and an arbitrary object maps exactly as the claim states. -/
theorem c9_witness :
    dictGet (get_extra_fields
        [("args", PyValue.pyint 1), ("request_id", PyValue.pynone),
         ("tenant", PyValue.pystr "t1"), ("conn", PyValue.pyother "<Conn 1>")])
      "args" = none ∧
    dictGet (get_extra_fields
        [("args", PyValue.pyint 1), ("request_id", PyValue.pynone),
         ("tenant", PyValue.pystr "t1"), ("conn", PyValue.pyother "<Conn 1>")])
      "request_id" = some (PyValue.pystr "None") ∧
    dictGet (get_extra_fields
        [("args", PyValue.pyint 1), ("request_id", PyValue.pynone),
         ("tenant", PyValue.pystr "t1"), ("conn", PyValue.pyother "<Conn 1>")])
      "tenant" = some (PyValue.pystr "t1") ∧
    dictGet (get_extra_fields
        [("args", PyValue.pyint 1), ("request_id", PyValue.pynone),
         ("tenant", PyValue.pystr "t1"), ("conn", PyValue.pyother "<Conn 1>")])
      "conn" = some (PyValue.pystr "<Conn 1>") := by
  have h := c9_get_extra_fields
    [("args", PyValue.pyint 1), ("request_id", PyValue.pynone),
     ("tenant", PyValue.pystr "t1"), ("conn", PyValue.pyother "<Conn 1>")]
    (by decide)
  refine ⟨h.1 "args" (by decide), ?_, ?_, ?_⟩
  · exact h.2 "request_id" PyValue.pynone (by decide) (by decide)
  · exact h.2 "tenant" (PyValue.pystr "t1") (by decide) (by decide)
  · exact h.2 "conn" (PyValue.pyother "<Conn 1>") (by decide) (by decide)

end Ignition
